import Mathlib

/- Shallow embedding of the Snips RMV skill (src/action-s710-rmv.py).

   Conventions of the embedding:
   - Python dicts with optional keys become structures with Option fields;
     a present key is `some`, an absent key is `none`.
   - Python functions that may let an exception escape are embedded with
     codomain `Except String _`; `.error` marks an escaped exception,
     `.ok` a normal return (including a returned `None`, which is `.ok none`).
   - The HTTP layer is abstracted: a service call's outcome is an input of
     type `SvcReply` (transport/HTTP failure, JSON parse failure - both of
     which the source catches and turns into `None` - or a parsed body).
   - Strings are Lean `String`s; Python `str.split` / `str.join` /
     `str.strip` are re-implemented below over the character list. -/

deriving instance DecidableEq for Except

namespace Rmv

/- Python `s.split(":")` on a character list (line 282 of the source uses
   `leg["Origin"]["time"].split(":")`).  `splitCharAux c l acc` walks `l`,
   collecting the current chunk in `acc` (reversed). -/
def splitCharAux (c : Char) : List Char → List Char → List (List Char)
  | [], acc => [acc.reverse]
  | x :: xs, acc =>
    if x = c then acc.reverse :: splitCharAux c xs []
    else splitCharAux c xs (x :: acc)

/- Python `":".join(chunks)` for the chunk lists produced above. -/
def joinColon : List (List Char) → List Char
  | [] => []
  | [x] => x
  | x :: y :: xs => x ++ ':' :: joinColon (y :: xs)

/- Line 282: `":".join(t.split(":")[:2])` - keep only hour and minute. -/
def truncTime (s : String) : String :=
  ⟨joinColon ((splitCharAux ':' s.data []).take 2)⟩

/- Whitespace characters stripped by Python `str.strip()` (ASCII range). -/
def isPySpace (c : Char) : Bool :=
  c == ' ' || c == '\t' || c == '\n' || c == '\r' || c == '\x0b' || c == '\x0c'

def stripList (l : List Char) : List Char :=
  ((l.dropWhile isPySpace).reverse.dropWhile isPySpace).reverse

/- Python `s.strip()` (lines 288 and 291). -/
def pyStrip (s : String) : String := ⟨stripList s.data⟩

/- Raw leg data, as consumed from the trip-service JSON (section 6 of the
   design): `Origin.{time,name}`, `Destination.{time,name}`, optional
   `direction`, `name`, `Product.catOutL`, `type`, `dist`. -/
structure RawPoint where
  time : Option String
  name : Option String
  deriving DecidableEq

structure RawProduct where
  catOutL : Option String
  deriving DecidableEq

structure RawLeg where
  origin : Option RawPoint
  destination : Option RawPoint
  direction : Option String
  name : Option String
  product : Option RawProduct
  type : Option String
  dist : Option Int
  deriving DecidableEq

/- The normalized stop dict built by `process_leg_list` (lines 282-296).
   `time`/`arrival`/`station`/`dest_station` are always set; the other
   keys are set conditionally, hence `Option`. -/
structure Stop where
  time : String
  arrival : String
  station : String
  dest_station : String
  direction : Option String
  train : Option String
  category : Option String
  distance : Option String
  deriving DecidableEq

/- Lines 290-293: the `category` key.  The `Product.catOutL` branch is the
   `if`, the `type == "WALK"` branch is the `elif`. -/
def categoryOf (leg : RawLeg) : Option String :=
  match leg.product.bind RawProduct.catOutL with
  | some c => some (pyStrip c)
  | none => if leg.type = some "WALK" then some "walk" else none

/- Lines 281-298: build one stop dict from one raw leg.  Every required
   key access (`Origin.time`, `Destination.time`, `Origin.name`,
   `Destination.name`, and the `Origin`/`Destination` dicts themselves)
   raises `KeyError` when absent; the `except` at lines 300-305 turns
   that into `None`, so the per-leg result is an `Option`. -/
def processLeg (leg : RawLeg) : Option Stop := do
  let o ← leg.origin
  let d ← leg.destination
  let ot ← o.time
  let dt ← d.time
  let onm ← o.name
  let dnm ← d.name
  pure { time := truncTime ot, arrival := truncTime dt,
         station := onm, dest_station := dnm,
         direction := leg.direction,
         train := leg.name.map pyStrip,
         category := categoryOf leg,
         distance := leg.dist.map (fun n => toString n) }

/- Lines 277-307: the loop over the leg list; the first bad leg makes the
   whole call return `None`. -/
def process_leg_list : List RawLeg → Option (List Stop)
  | [] => some []
  | leg :: rest =>
    match processLeg leg with
    | none => none
    | some st =>
      match process_leg_list rest with
      | none => none
      | some sts => some (st :: sts)

/- Lines 340-344. -/
def get_train_title (category train : String) : String :=
  if category = "U-Bahn" ∨ category = "S-Bahn" then category ++ " " ++ train
  else train

/- Line 322: the walk clause, with `d` the value of `stop["distance"]`. -/
def walkClauseOf (d : String) (st : Stop) : String :=
  d ++ " Meter laufen bis " ++ st.dest_station ++ ". "

/- Line 325: the clause for the transit leg at index 0. -/
def firstClauseOf (category train direction : String) (st : Stop) : String :=
  get_train_title category train ++ " Richtung " ++ direction ++ " um " ++
    st.time ++ " Uhr. "

/- Line 327: the transfer clause for a transit leg at index > 0. -/
def transferClauseOf (category train direction : String) (st : Stop) : String :=
  "Umsteigen an " ++ st.station ++ " zu " ++ get_train_title category train ++
    " Richtung " ++ direction ++ " um " ++ st.time ++ " Uhr. "

def transitClauseAt (i : Nat) (st : Stop) (category train direction : String) : String :=
  if i = 0 then firstClauseOf category train direction st
  else transferClauseOf category train direction st

/- Lines 318-330: the per-stop loop of `make_response`, carrying the loop
   index `i`.  Key accesses `stop["category"]`, `stop["distance"]`,
   `stop["train"]`, `stop["direction"]` are NOT guarded in the source, so
   an absent key is an escaped `KeyError` (`.error`).  With `short_info`
   the loop `break`s right after the first transit clause (line 330). -/
def makeClauses (short_info : Bool) : Nat → List Stop → Except String String
  | _, [] => .ok ""
  | i, st :: rest =>
    match st.category with
    | none => .error "KeyError: category"
    | some cat =>
      if cat = "walk" then
        match st.distance with
        | none => .error "KeyError: distance"
        | some d =>
          match makeClauses short_info (i + 1) rest with
          | .error e => .error e
          | .ok tail => .ok (walkClauseOf d st ++ tail)
      else
        match st.train with
        | none => .error "KeyError: train"
        | some tr =>
          match st.direction with
          | none => .error "KeyError: direction"
          | some dir =>
            if short_info then .ok (transitClauseAt i st cat tr dir)
            else
              match makeClauses short_info (i + 1) rest with
              | .error e => .error e
              | .ok tail => .ok (transitClauseAt i st cat tr dir ++ tail)

/- Lines 312-335: `make_response`.  `if not stops: return None` is the
   `getLast? = none` case; afterwards `stops[-1]` is the `getLast?`
   element and the arrival clause is always appended. -/
def make_response (short_info : Bool) (stops : List Stop) : Except String (Option String) :=
  match stops.getLast? with
  | none => .ok none
  | some last =>
    match makeClauses short_info 0 stops with
    | .error e => .error e
    | .ok body => .ok (some (body ++ ("Ankunft um " ++ last.arrival ++ " Uhr.")))

/- Outcome of one HTTP GET, as seen by the caller after the source's own
   status / parse handling: `httpError` is `status != 200 or not content`
   (returns None), `parseError` is a caught `json.loads` failure (returns
   None), `parsed` carries the decoded body. -/
inductive SvcReply (α : Type) where
  | httpError
  | parseError
  | parsed (body : α)
  deriving DecidableEq

/- Body shape consumed by `get_location_id` (lines 232-240). -/
structure StopLocation where
  extId : Option String
  name : Option String
  deriving DecidableEq

structure LocEntry where
  stopLocation : Option StopLocation
  deriving DecidableEq

structure LocResponse where
  /- `none` models the key being absent or its value not being a list
     (line 232); both return `None` there. -/
  stopLocationOrCoordLocation : Option (List LocEntry)
  deriving DecidableEq

/- Lines 208-240.  The `[0]` index at line 235 is evaluated on
   `dict["stopLocationOrCoordLocation"]` with no emptiness check and no
   surrounding `try`, so an empty list raises `IndexError`; likewise
   `stop["extId"]` / `stop["name"]` at line 240 raise `KeyError` when
   absent.  These escaped exceptions are the `.error` cases. -/
def get_location_id (r : SvcReply LocResponse) : Except String (Option (String × String)) :=
  match r with
  | .httpError => .ok none
  | .parseError => .ok none
  | .parsed body =>
    match body.stopLocationOrCoordLocation with
    | none => .ok none
    | some entries =>
      match entries with
      | [] => .error "IndexError"
      | e :: _ =>
        match e.stopLocation with
        | none => .ok none
        | some stop =>
          match stop.extId with
          | none => .error "KeyError: extId"
          | some i =>
            match stop.name with
            | none => .error "KeyError: name"
            | some n => .ok (some (i, n))

/- Body shape consumed by `get_trip` (lines 245-272): `legs` is
   `dict["Trip"][0]["LegList"]["Leg"]`; the whole access is wrapped in
   `try`/`except` (lines 266-270), so any missing step is `none`. -/
structure TripResponse where
  legs : Option (List RawLeg)
  deriving DecidableEq

def get_trip (r : SvcReply TripResponse) : Option (List Stop) :=
  match r with
  | .httpError => none
  | .parseError => none
  | .parsed body =>
    match body.legs with
    | none => none
    | some legs => process_leg_list legs

/- Python truthiness tests used at line 184: `not tme` and
   `self.time_offset` (an `int` or `None`; `0` is falsy). -/
def pyFalsyStr : Option String → Bool
  | none => true
  | some s => s == ""

def pyFalsyInt : Option Int → Bool
  | none => true
  | some o => o == 0

/- Zero-padded two-digit field of `strftime`. -/
def pad2 (n : Nat) : String :=
  if n < 10 then "0" ++ toString n else toString n

/- Lines 185-186: `(datetime.fromtimestamp(time.time()) +
   timedelta(minutes=offset)).strftime("%H:%M:00")`.  Only the time of
   day survives formatting, so the datetime is modelled by its total
   minutes; `%H:%M` of `now + offset` is `(now + offset) mod 1440`. -/
def strftimeHM00 (totalMinutes : Int) : String :=
  let m := (totalMinutes % 1440).toNat
  (pad2 (m / 60) ++ ":" ++ pad2 (m % 60)) ++ ":00"

/- Lines 182-186: `if not tme and self.time_offset: tme = ...`. -/
def computeTime (dep_time : Option String) (time_offset : Option Int)
    (nowMinutes : Int) : Option String :=
  if pyFalsyStr dep_time && !(pyFalsyInt time_offset) then
    some (strftimeHM00 (nowMinutes + time_offset.getD 0))
  else dep_time

/- The Python value `query` returns: `False` (line 180/194), `None`
   (a `make_response` of an empty stop list), or the response string. -/
inductive PyVal where
  | pyFalse
  | pyNone
  | pyStr (s : String)
  deriving DecidableEq

/- Lines 163-203: the orchestrator.  The two location lookups and the
   trip fetch are abstracted by their replies; `tripFetch` is a function
   of the optional `time` parameter the source would send (line 248).
   The `rmv_homecity_only` flag only changes the search string of the
   destination lookup (lines 173-176), which lives inside `destReply`
   here.  An exception escaping any stage escapes `query` too (there is
   no `try` in `query`). -/
def query (originReply destReply : SvcReply LocResponse)
    (tripFetch : Option String → SvcReply TripResponse)
    (dep_time : Option String) (time_offset : Option Int) (nowMinutes : Int)
    (short_info : Bool) : Except String PyVal :=
  match get_location_id originReply with
  | .error e => .error e
  | .ok origin_id =>
    match get_location_id destReply with
    | .error e => .error e
    | .ok dest_id =>
      match origin_id, dest_id with
      | some _, some _ =>
        let tme := computeTime dep_time time_offset nowMinutes
        match get_trip (tripFetch tme) with
        | none => .ok .pyFalse
        | some stops =>
          match make_response short_info stops with
          | .error e => .error e
          | .ok none => .ok .pyNone
          | .ok (some s) => .ok (.pyStr s)
      | _, _ => .ok .pyFalse

/- Lines 349-353: `done` publishes the response when it `is not None`,
   and the fixed apology otherwise.  The returned value is the message
   actually handed to `publish_end_session`. -/
def done (response_message : PyVal) : PyVal :=
  match response_message with
  | .pyNone => .pyStr "Verbindung konnte nicht abgefragt werden"
  | r => r

/- Concatenation of the walk clauses of a list of stops (each taking its
   `distance` value); used to describe `make_response` output. -/
def walkClausesStr : List Stop → String
  | [] => ""
  | st :: rest => walkClauseOf (st.distance.getD "") st ++ walkClausesStr rest

/- ------------------------------------------------------------------ -/
/- Concrete sample data used by the claim theorems                     -/
/- ------------------------------------------------------------------ -/

/- A location response with one good match (origin resolves fine). -/
def c1OriginResp : LocResponse :=
  ⟨some [⟨some ⟨some "003000010", some "Frankfurt Hauptbahnhof"⟩⟩]⟩

/- A location response with no usable match: the key is absent. -/
def c1DestResp : LocResponse := ⟨none⟩

/- A raw leg carrying exactly the required fields - no `Product`, no
   `type`, so the built stop has no `category` key. -/
def c2Leg : RawLeg :=
  { origin := some ⟨some "08:15:00", some "Hauptbahnhof"⟩,
    destination := some ⟨some "08:22:00", some "Hauptwache"⟩,
    direction := none, name := none, product := none, type := none, dist := none }

def c2Stop : Stop :=
  { time := "08:15", arrival := "08:22", station := "Hauptbahnhof",
    dest_station := "Hauptwache", direction := none, train := none,
    category := none, distance := none }

/- A walk stop followed by a transit stop (scenario of C3). -/
def c3wWalk : Stop :=
  { time := "08:10", arrival := "08:12", station := "Zuhause",
    dest_station := "Taunusanlage", direction := none, train := none,
    category := some "walk", distance := some "120" }

def c3wTransit : Stop :=
  { time := "08:20", arrival := "08:31", station := "Taunusanlage",
    dest_station := "Hauptwache", direction := some "Wiesbaden",
    train := some "S8", category := some "S-Bahn", distance := none }

/- The single-leg stop of scenario C4, parameterized by its category. -/
def c4Stop (cat : String) : Stop :=
  { time := "08:15", arrival := "08:22", station := "Frankfurt Hauptbahnhof",
    dest_station := "Hauptwache", direction := some "Bad Homburg",
    train := some "S5", category := some cat, distance := none }

/- A raw leg whose `type` is "WALK" while `Product.catOutL` is present. -/
def c5xLeg : RawLeg :=
  { origin := some ⟨some "08:00:00", some "A"⟩,
    destination := some ⟨some "08:05:00", some "B"⟩,
    direction := none, name := none, product := some ⟨some "Bus"⟩,
    type := some "WALK", dist := some 300 }

def c5xStop : Stop :=
  { time := "08:00", arrival := "08:05", station := "A", dest_station := "B",
    direction := none, train := none, category := some "Bus",
    distance := some "300" }

/- A transit raw leg with `Product.catOutL` present and no `type`. -/
def c5wLeg : RawLeg :=
  { origin := some ⟨some "09:00:00", some "A"⟩,
    destination := some ⟨some "09:08:00", some "B"⟩,
    direction := some "Hanau", name := some "S9",
    product := some ⟨some "Bus"⟩, type := none, dist := none }

def c5wStop : Stop :=
  { time := "09:00", arrival := "09:08", station := "A", dest_station := "B",
    direction := some "Hanau", train := some "S9", category := some "Bus",
    distance := none }

/- A well-formed leg and a leg missing `Destination.name`. -/
def c6Good : RawLeg :=
  { origin := some ⟨some "08:15:00", some "Hauptbahnhof"⟩,
    destination := some ⟨some "08:20:00", some "Taunusanlage"⟩,
    direction := some "Wiesbaden", name := some "S8",
    product := some ⟨some "S-Bahn"⟩, type := none, dist := none }

def c6Bad : RawLeg :=
  { origin := some ⟨some "08:20:00", some "Taunusanlage"⟩,
    destination := some ⟨some "08:30:00", none⟩,
    direction := some "Wiesbaden", name := some "S8",
    product := some ⟨some "S-Bahn"⟩, type := none, dist := none }

def c6Legs : List RawLeg := [c6Good, c6Bad]

/- A single transit stop and the response it synthesizes. -/
def c8Stop : Stop :=
  { time := "08:15", arrival := "08:22", station := "Hauptbahnhof",
    dest_station := "Hauptwache", direction := some "Bad Homburg",
    train := some "S5", category := some "S", distance := none }

def c8Str : String := "S5 Richtung Bad Homburg um 08:15 Uhr. Ankunft um 08:22 Uhr."

/- A raw leg whose train label and category code carry surrounding
   whitespace. -/
def c10Leg : RawLeg :=
  { origin := some ⟨some "09:00:00", some "Hauptbahnhof"⟩,
    destination := some ⟨some "09:10:00", some "Konstablerwache"⟩,
    direction := some "Hanau", name := some "  S8 ",
    product := some ⟨some " S-Bahn\t"⟩, type := none, dist := none }

def c10Stop : Stop :=
  { time := "09:00", arrival := "09:10", station := "Hauptbahnhof",
    dest_station := "Konstablerwache", direction := some "Hanau",
    train := some "S8", category := some "S-Bahn", distance := none }

end Rmv

namespace Rmv

/- ------------------------------------------------------------------ -/
/- String helpers                                                      -/
/- ------------------------------------------------------------------ -/

theorem str_data_ext (a b : String) (h : a.data = b.data) : a = b := by
  cases a; cases b; cases h; rfl

theorem str_data_append (a b : String) : (a ++ b).data = a.data ++ b.data := by
  cases a; cases b; rfl

theorem str_append_assoc (a b c : String) : (a ++ b) ++ c = a ++ (b ++ c) := by
  apply str_data_ext
  simp [str_data_append]

theorem str_empty_append (a : String) : "" ++ a = a := by
  apply str_data_ext
  simp [str_data_append]

/- ------------------------------------------------------------------ -/
/- Splitting and stripping                                             -/
/- ------------------------------------------------------------------ -/

theorem splitCharAux_no_sep (c : Char) (xs : List Char) (h : ∀ a ∈ xs, a ≠ c) :
    ∀ acc ys, splitCharAux c (xs ++ c :: ys) acc
      = (acc.reverse ++ xs) :: splitCharAux c ys [] := by
  induction xs with
  | nil => intro acc ys; simp [splitCharAux]
  | cons x xs ih =>
    intro acc ys
    have hx : x ≠ c := h x (by simp)
    have h' : ∀ a ∈ xs, a ≠ c := fun a ha => h a (by simp [ha])
    simp only [List.cons_append, splitCharAux, if_neg hx, List.append_eq]
    rw [ih h' (x :: acc) ys]
    simp

theorem head?_dropWhile_not (p : Char → Bool) :
    ∀ (l : List Char) (ch : Char), (l.dropWhile p).head? = some ch → p ch = false := by
  intro l
  induction l with
  | nil => intro ch h; cases h
  | cons x xs ih =>
    intro ch h
    rw [List.dropWhile_cons] at h
    by_cases hx : p x = true
    · rw [if_pos hx] at h; exact ih ch h
    · rw [if_neg hx] at h
      simp only [List.head?_cons, Option.some.injEq] at h
      subst h
      exact Bool.eq_false_iff.mpr hx

theorem getLast?_dropWhile (p : Char → Bool) :
    ∀ (l : List Char) (ch : Char), (l.dropWhile p).getLast? = some ch →
      l.getLast? = some ch := by
  intro l
  induction l with
  | nil => intro ch h; cases h
  | cons x xs ih =>
    intro ch h
    rw [List.dropWhile_cons] at h
    by_cases hx : p x = true
    · rw [if_pos hx] at h
      have h2 := ih ch h
      cases xs with
      | nil => cases h2
      | cons y ys => rw [List.getLast?_cons_cons]; exact h2
    · rw [if_neg hx] at h
      exact h

theorem pyStrip_last_no_space (s : String) (ch : Char)
    (h : (pyStrip s).data.getLast? = some ch) : isPySpace ch = false := by
  have h' : (((s.data.dropWhile isPySpace).reverse.dropWhile isPySpace).reverse).getLast?
      = some ch := h
  rw [List.getLast?_reverse] at h'
  exact head?_dropWhile_not _ _ _ h'

theorem pyStrip_head_no_space (s : String) (ch : Char)
    (h : (pyStrip s).data.head? = some ch) : isPySpace ch = false := by
  have h' : (((s.data.dropWhile isPySpace).reverse.dropWhile isPySpace).reverse).head?
      = some ch := h
  rw [List.head?_reverse] at h'
  have h2 := getLast?_dropWhile isPySpace _ _ h'
  rw [List.getLast?_reverse] at h2
  exact head?_dropWhile_not _ _ _ h2

/- ------------------------------------------------------------------ -/
/- Inversion of processLeg                                             -/
/- ------------------------------------------------------------------ -/

theorem processLeg_fields (leg : RawLeg) (st : Stop) (hp : processLeg leg = some st) :
    st.category = categoryOf leg ∧ st.train = leg.name.map pyStrip := by
  simp only [processLeg, Option.pure_def, Option.bind_eq_bind, Option.bind_eq_some,
    Option.some.injEq] at hp
  obtain ⟨o, _, d, _, ot, _, dt, _, onm, _, dnm, _, hst⟩ := hp
  subst hst
  exact ⟨rfl, rfl⟩

theorem processLeg_none_of_missing (leg : RawLeg)
    (h : leg.origin.bind RawPoint.name = none
       ∨ leg.destination.bind RawPoint.name = none
       ∨ leg.origin.bind RawPoint.time = none
       ∨ leg.destination.bind RawPoint.time = none) :
    processLeg leg = none := by
  simp only [processLeg, Option.pure_def, Option.bind_eq_bind]
  cases hO : leg.origin with
  | none => rfl
  | some o =>
    cases hD : leg.destination with
    | none => rfl
    | some d =>
      rcases h with h | h | h | h <;>
        simp only [hO, hD, Option.some_bind] at h <;>
        simp [h]

/- ------------------------------------------------------------------ -/
/- Short-form synthesis: clause structure                              -/
/- ------------------------------------------------------------------ -/

theorem makeClauses_short (st : Stop) (c tr dir : String)
    (hc : st.category = some c) (hcw : c ≠ "walk")
    (ht : st.train = some tr) (hd : st.direction = some dir) :
    ∀ (pre : List Stop), (∀ w ∈ pre, w.category = some "walk" ∧ w.distance ≠ none) →
    ∀ (i : Nat) (rest : List Stop),
    makeClauses true i (pre ++ st :: rest)
      = .ok (walkClausesStr pre ++ transitClauseAt (i + pre.length) st c tr dir) := by
  intro pre
  induction pre with
  | nil =>
    intro _ i rest
    simp [makeClauses, hc, ht, hd, hcw, walkClausesStr, str_empty_append]
  | cons w pre ih =>
    intro hw i rest
    obtain ⟨hwc, hwd⟩ := hw w (List.mem_cons_self _ _)
    cases hdist : w.distance with
    | none => exact absurd hdist hwd
    | some d =>
      have hrec := ih (fun x hx => hw x (List.mem_cons_of_mem _ hx)) (i + 1) rest
      have harith : i + 1 + pre.length = i + (pre.length + 1) := by omega
      simp [makeClauses, hwc, hdist, hrec, harith, walkClausesStr,
        str_append_assoc]

/- ------------------------------------------------------------------ -/
/- Claim theorems                                                      -/
/- ------------------------------------------------------------------ -/

/-- C6: if any leg of the list is missing a required field (Origin.name,
Destination.name, Origin.time or Destination.time), `process_leg_list`
returns failure (`none`) - never a partial stop list. -/
theorem c6_all_or_nothing (legs : List RawLeg) (leg : RawLeg) (hmem : leg ∈ legs)
    (hbad : leg.origin.bind RawPoint.name = none
          ∨ leg.destination.bind RawPoint.name = none
          ∨ leg.origin.bind RawPoint.time = none
          ∨ leg.destination.bind RawPoint.time = none) :
    process_leg_list legs = none := by
  induction legs with
  | nil => cases hmem
  | cons a t ih =>
    rcases List.mem_cons.mp hmem with rfl | h
    · have hn := processLeg_none_of_missing leg hbad
      simp [process_leg_list, hn]
    · have hrec := ih h
      cases hpa : processLeg a with
      | none => simp [process_leg_list, hpa]
      | some st => simp [process_leg_list, hpa, hrec]

/-- C6 witness: a two-leg list whose second leg is missing
`Destination.name` normalizes to `none`. -/
theorem c6_all_or_nothing_witness : process_leg_list c6Legs = none :=
  c6_all_or_nothing c6Legs c6Bad (by decide) (Or.inr (Or.inl (by decide)))

/-- C7: the time truncation of `process_leg_list` maps any string of the
form `HH:MM:<anything>` (hour and minute parts free of colons) to
exactly `HH:MM`, independent of the seconds value and of any timezone
suffix. -/
theorem c7_time_truncation (hh mm rest : String)
    (h1 : ∀ a ∈ hh.data, a ≠ ':') (h2 : ∀ a ∈ mm.data, a ≠ ':') :
    truncTime (hh ++ ":" ++ mm ++ ":" ++ rest) = hh ++ ":" ++ mm := by
  have hcolon : (":" : String).data = [':'] := rfl
  apply str_data_ext
  show joinColon ((splitCharAux ':' (hh ++ ":" ++ mm ++ ":" ++ rest).data []).take 2)
      = (hh ++ ":" ++ mm).data
  have hS : (hh ++ ":" ++ mm ++ ":" ++ rest).data
      = hh.data ++ ':' :: (mm.data ++ ':' :: rest.data) := by
    simp [str_data_append, hcolon]
  rw [hS, splitCharAux_no_sep ':' hh.data h1,
    splitCharAux_no_sep ':' mm.data h2]
  simp [joinColon, str_data_append, hcolon]

/-- C7 witness: `"08:15:00 +00:00"` truncates to `"08:15"`. -/
theorem c7_time_truncation_witness :
    truncTime ("08" ++ ":" ++ "15" ++ ":" ++ "00 +00:00") = "08" ++ ":" ++ "15" :=
  c7_time_truncation "08" "15" "00 +00:00" (by decide) (by decide)

/-- C8: whenever `make_response` returns a string (so the stop list is
non-empty and every field its clauses need is present), that string ends
with the literal arrival clause for the last stop, for both values of
the short-form flag. -/
theorem c8_arrival_clause (si : Bool) (stops : List Stop) (last : Stop) (s : String)
    (hl : stops.getLast? = some last)
    (hs : make_response si stops = .ok (some s)) :
    ∃ p, s = p ++ ("Ankunft um " ++ last.arrival ++ " Uhr.") := by
  unfold make_response at hs
  rw [hl] at hs
  cases hmc : makeClauses si 0 stops with
  | error e =>
    rw [hmc] at hs
    exact Except.noConfusion hs
  | ok body =>
    rw [hmc] at hs
    simp only [Except.ok.injEq, Option.some.injEq] at hs
    exact ⟨body, hs.symm⟩

/-- C8 witness: the concrete single-leg response ends with its arrival
clause. -/
theorem c8_arrival_clause_witness :
    ∃ p, c8Str = p ++ ("Ankunft um " ++ c8Stop.arrival ++ " Uhr.") :=
  c8_arrival_clause false [c8Stop] c8Stop c8Str (by decide) (by decide)

/-- C1: evaluation at the failing input.  When destination resolution
finds no stop, `query` returns the Python value `False` (not `None`),
and `done` - which only substitutes the apology for `None` - passes the
boolean `False` on to `publish_end_session` instead of speaking the
fixed apology string. -/
theorem c1_failure_bypasses_apology :
    query (.parsed c1OriginResp) (.parsed c1DestResp) (fun _ => .httpError)
      none none 0 false = .ok .pyFalse
  ∧ done .pyFalse = .pyFalse
  ∧ done .pyFalse ≠ .pyStr "Verbindung konnte nicht abgefragt werden" := by
  refine ⟨by decide, rfl, by decide⟩

/-- C2: evaluation at the failing inputs.  `get_location_id` lets an
`IndexError` escape on an empty `stopLocationOrCoordLocation` list and a
`KeyError` escape on a `StopLocation` without `extId`; and a stop list
that `process_leg_list` happily produces (a leg with no `Product` and no
`type`) makes `make_response` raise `KeyError` on `stop["category"]`
instead of returning a string or `None`. -/
theorem c2_exceptions_escape :
    get_location_id (.parsed ⟨some []⟩) = .error "IndexError"
  ∧ get_location_id (.parsed ⟨some [⟨some ⟨none, some "Hauptwache"⟩⟩]⟩)
      = .error "KeyError: extId"
  ∧ process_leg_list [c2Leg] = some [c2Stop]
  ∧ make_response false [c2Stop] = .error "KeyError: category" := by
  refine ⟨by decide, by decide, by decide, by decide⟩

/-- C3 counterexample: with short-form enabled, an itinerary whose first
leg is a walk still produces an output containing the transfer-style
substring "Umsteigen an", because the one transit clause emitted before
the `break` uses the transfer phrasing at index 1. -/
theorem c3_shortform_counterexample :
    make_response true [c3wWalk, c3wTransit] =
      .ok (some ("120 Meter laufen bis Taunusanlage. " ++ "Umsteigen an" ++
        " Taunusanlage zu S-Bahn S8 Richtung Wiesbaden um 08:20 Uhr. Ankunft um 08:31 Uhr.")) := by
  decide

/-- C3 (amended): with short-form enabled, synthesis emits the walk
clauses preceding the first transit stop, then exactly one transit
clause, then the arrival clause - the rest of the itinerary is dropped.
That single transit clause is the plain first-clause form when the
transit stop is at index 0 and the transfer ("Umsteigen an ...") form
otherwise; so the output holds at most one transfer clause, and none
when the itinerary starts with a transit leg. -/
theorem c3_shortform_one_transit_clause (pre rest : List Stop) (st last : Stop)
    (c tr dir : String)
    (hw : ∀ w ∈ pre, w.category = some "walk" ∧ w.distance ≠ none)
    (hc : st.category = some c) (hcw : c ≠ "walk")
    (ht : st.train = some tr) (hd : st.direction = some dir)
    (hl : (pre ++ st :: rest).getLast? = some last) :
    make_response true (pre ++ st :: rest)
      = .ok (some (walkClausesStr pre ++ transitClauseAt pre.length st c tr dir ++
          ("Ankunft um " ++ last.arrival ++ " Uhr."))) := by
  unfold make_response
  rw [hl, makeClauses_short st c tr dir hc hcw ht hd pre hw 0 rest]
  simp only [Nat.zero_add, str_append_assoc]

/-- C3 witness: walk plus transit under short-form yields exactly walk
clause, one (transfer-phrased) transit clause, arrival clause. -/
theorem c3_shortform_one_transit_clause_witness :
    make_response true ([c3wWalk] ++ c3wTransit :: []) =
      .ok (some (walkClausesStr [c3wWalk] ++
        transitClauseAt [c3wWalk].length c3wTransit "S-Bahn" "S8" "Wiesbaden" ++
        ("Ankunft um " ++ c3wTransit.arrival ++ " Uhr."))) :=
  c3_shortform_one_transit_clause [c3wWalk] [] c3wTransit c3wTransit
    "S-Bahn" "S8" "Wiesbaden" (by decide) (by decide) (by decide) (by decide)
    (by decide) (by decide)

/-- C4 counterexample: with the short category code "S" (instead of the
long category name), `get_train_title` does not prefix anything, so the
synthesized string is not the one the claim states. -/
theorem c4_category_code_counterexample :
    make_response false [c4Stop "S"]
      = .ok (some "S5 Richtung Bad Homburg um 08:15 Uhr. Ankunft um 08:22 Uhr.")
  ∧ get_train_title "S" "S5" = "S5"
  ∧ ("S5 Richtung Bad Homburg um 08:15 Uhr. Ankunft um 08:22 Uhr." : String)
      ≠ "S-Bahn S5 Richtung Bad Homburg um 08:15 Uhr. Ankunft um 08:22 Uhr." := by
  refine ⟨by decide, by decide, by decide⟩

/-- C4 (amended): the two designated local-rail categories are the full
names "U-Bahn" and "S-Bahn" (the long `catOutL` values), not the short
code "S"; with category "S-Bahn" the single-leg itinerary of the
scenario synthesizes exactly the claimed string. -/
theorem c4_sbahn_title :
    make_response false [c4Stop "S-Bahn"]
      = .ok (some "S-Bahn S5 Richtung Bad Homburg um 08:15 Uhr. Ankunft um 08:22 Uhr.")
  ∧ get_train_title "S-Bahn" "S5" = "S-Bahn S5" := by
  refine ⟨by decide, by decide⟩

/-- C5 counterexample: a raw leg with `type = "WALK"` AND a present
`Product.catOutL` is NOT classified as a walk - the product category
wins. -/
theorem c5_walk_precedence_counterexample :
    processLeg c5xLeg = some c5xStop
  ∧ c5xLeg.type = some "WALK"
  ∧ c5xStop.category = some "Bus"
  ∧ c5xStop.category ≠ some "walk" := by
  refine ⟨by decide, by decide, by decide, by decide⟩

/-- C5 (amended): the category of a normalized leg comes from
`Product.catOutL` whenever that field is present - even when the raw
`type` is "WALK" - and the leg is classified as a walk if and only if
`Product.catOutL` is absent and `type` equals "WALK". -/
theorem c5_category_classification (leg : RawLeg) (st : Stop)
    (hp : processLeg leg = some st) :
    (∀ c, leg.product.bind RawProduct.catOutL = some c → st.category = some (pyStrip c))
  ∧ (leg.product.bind RawProduct.catOutL = none →
      (st.category = some "walk" ↔ leg.type = some "WALK")) := by
  obtain ⟨hcat, -⟩ := processLeg_fields leg st hp
  constructor
  · intro c hc
    rw [hcat]
    simp [categoryOf, hc]
  · intro hnone
    rw [hcat]
    unfold categoryOf
    rw [hnone]
    show (if leg.type = some "WALK" then some "walk" else none) = some "walk"
      ↔ leg.type = some "WALK"
    constructor
    · intro hwk
      by_cases htw : leg.type = some "WALK"
      · exact htw
      · rw [if_neg htw] at hwk
        exact Option.noConfusion hwk
    · intro htw
      rw [if_pos htw]

/-- C5 witness: a transit leg whose product category is "Bus". -/
theorem c5_category_classification_witness :
    c5wStop.category = some (pyStrip "Bus") :=
  (c5_category_classification c5wLeg c5wStop (by decide)).1 "Bus" (by decide)

/-- C9 counterexample: with a configured offset of 0 (non-null!) and no
explicit departure time, no time is computed at all - `0` is falsy in
the `if not tme and self.time_offset` test - so the time passed to the
trip fetch is not `now + 0` formatted. -/
theorem c9_zero_offset_counterexample :
    computeTime none (some 0) 600 = none
  ∧ computeTime none (some 0) 600 ≠ some (strftimeHM00 (600 + 0)) := by
  refine ⟨by decide, by decide⟩

/-- C9 (amended): for every non-null, NON-ZERO offset, when no explicit
departure time is supplied the time passed to the trip fetch is the
current time plus the offset in minutes, formatted at minute precision
with the seconds fixed at ":00". -/
theorem c9_offset_time_formatted (off nowMinutes : Int) (h : off ≠ 0) :
    computeTime none (some off) nowMinutes = some (strftimeHM00 (nowMinutes + off))
  ∧ ∃ hm, strftimeHM00 (nowMinutes + off) = hm ++ ":00" := by
  constructor
  · have hbeq : (off == 0) = false := beq_eq_false_iff_ne.mpr h
    simp [computeTime, pyFalsyStr, pyFalsyInt, hbeq]
  · exact ⟨_, rfl⟩

/-- C9 witness: offset 30 minutes at 08:00 gives "08:30:00". -/
theorem c9_offset_time_formatted_witness :
    computeTime none (some 30) 480 = some (strftimeHM00 (480 + 30)) :=
  (c9_offset_time_formatted 30 480 (by decide)).1

/-- C10: when the raw train label is present the normalized `train`
field is its stripped value, and a present `Product.catOutL` is likewise
stripped; a stripped string never starts or ends with whitespace. -/
theorem c10_strip_fields (leg : RawLeg) (st : Stop) (hp : processLeg leg = some st) :
    (∀ n, leg.name = some n → st.train = some (pyStrip n))
  ∧ (∀ c, leg.product.bind RawProduct.catOutL = some c → st.category = some (pyStrip c))
  ∧ (∀ s ch, (pyStrip s).data.head? = some ch ∨ (pyStrip s).data.getLast? = some ch →
      isPySpace ch = false) := by
  obtain ⟨hcat, htr⟩ := processLeg_fields leg st hp
  refine ⟨?_, ?_, ?_⟩
  · intro n hn
    rw [htr, hn]
    rfl
  · intro c hc
    rw [hcat]
    simp [categoryOf, hc]
  · intro s ch hch
    rcases hch with h | h
    · exact pyStrip_head_no_space s ch h
    · exact pyStrip_last_no_space s ch h

/-- C10 witness: a label "  S8 " and a category " S-Bahn\t" are stored
stripped. -/
theorem c10_strip_fields_witness :
    c10Stop.train = some (pyStrip "  S8 ")
  ∧ c10Stop.category = some (pyStrip " S-Bahn\t")
  ∧ pyStrip "  S8 " = "S8" ∧ pyStrip " S-Bahn\t" = "S-Bahn" := by
  have h := c10_strip_fields c10Leg c10Stop (by decide)
  exact ⟨h.1 "  S8 " (by decide), h.2.1 " S-Bahn\t" (by decide), by decide, by decide⟩

end Rmv
